import Mathlib

set_option maxRecDepth 100000

/-
Shallow embedding of the FeuerNES emulation core (Rust) in Lean 4, used to
check the natural-language specification against the code.

Bytes and 16-bit words are modelled as Nat with explicit masks and moduli;
fallible operations (array indexing past the bound, register access faults,
unknown opcodes) are modelled with Option and Except.
-/

namespace FeuerNES

/- ===== mem.rs ===== -/

/-- Capacity constant from mem.rs. The value is 0xFFFF = 65535, one short of
the 0x10000 cells needed to cover the whole 16-bit address space. -/
def MEMORY_CAP : Nat := 0xFFFF

/-- Flat byte store from mem.rs (an array of MEMORY_CAP bytes). -/
structure Memory where
  raw_mem : Nat → Nat

def Memory.new : Memory := ⟨fun _ => 0⟩

/-- mem.rs read: indexes raw_mem[addr]. The backing array has MEMORY_CAP
elements, so addr ≥ MEMORY_CAP is an out-of-bounds fault (none). -/
def Memory.read (m : Memory) (addr : Nat) : Option Nat :=
  if addr < MEMORY_CAP then some (m.raw_mem addr) else none

/-- mem.rs read_u16: little-endian, lo from addr, hi from addr + 1. -/
def Memory.read_u16 (m : Memory) (addr : Nat) : Option Nat := do
  let lo ← m.read addr
  let hi ← m.read (addr + 1)
  some ((hi <<< 8) ||| lo)

/- ===== cartridge.rs ===== -/

def NES_MAGIC_NUMBER : List Nat := [0x4E, 0x45, 0x53, 0x1A]

def PRG_ROM_PAGE_SIZE : Nat := 16384

def CHR_ROM_PAGE_SIZE : Nat := 8192

inductive MirroringType where
  | Vertical
  | Horizontal
  | FourScreen
deriving DecidableEq

structure Cartridge where
  prg : List Nat
  chr : List Nat
  mapper : Nat
  mirroring_type : MirroringType
deriving DecidableEq

/-- cartridge.rs Cartridge::new. The source reads raw[8] and raw[9] without a
length guard (a fault for inputs of length 8 or 9, modelled as an error), and
slices raw for PRG and CHR (a fault when the input is too short). Error
strings are the ones in the source. -/
def Cartridge.new (raw : List Nat) : Except String Cartridge :=
  if raw.length < 8 ∨ raw.take 4 ≠ NES_MAGIC_NUMBER then
    .error "not valid nes cartridge!"
  else
    match raw.get? 8, raw.get? 9 with
    | some _size_of_prg_ram_in_8k, some _reserved =>
      let num_of_prg_banks := raw.getD 4 0
      let num_of_chr_banks := raw.getD 5 0
      let ctrl_byte_one := raw.getD 6 0
      let ctrl_byte_two := raw.getD 7 0
      let has_trainer := ctrl_byte_one &&& 0b100 != 0
      let has_four_scrren_vram_layout := ctrl_byte_one &&& 0b1000 != 0
      if ctrl_byte_two &&& 0b11 ≠ 0 then
        .error "not valid iNES 1.0 cartridge!"
      else if ctrl_byte_two &&& 0b1100 = 2 then
        .error "not support iNES 2.0 cartridge!"
      else
        let is_vertical_mirroring := ctrl_byte_one &&& 0b1 != 0
        let mirroring_type :=
          match has_four_scrren_vram_layout, is_vertical_mirroring with
          | true, _ => MirroringType.FourScreen
          | false, false => MirroringType.Horizontal
          | false, true => MirroringType.Vertical
        let mapper := (ctrl_byte_two &&& 0b11110000) ||| (ctrl_byte_one >>> 4)
        let size_of_prg_rom := num_of_prg_banks * PRG_ROM_PAGE_SIZE
        let size_of_chr_rom := num_of_chr_banks * CHR_ROM_PAGE_SIZE
        let entry_point_of_prg_rom := 16 + if has_trainer then 512 else 0
        let entry_point_of_chr_rom := entry_point_of_prg_rom + size_of_prg_rom
        if entry_point_of_chr_rom + size_of_chr_rom ≤ raw.length then
          .ok { prg := (raw.drop entry_point_of_prg_rom).take size_of_prg_rom
                chr := (raw.drop entry_point_of_chr_rom).take size_of_chr_rom
                mapper := mapper
                mirroring_type := mirroring_type }
        else
          .error "slice out of range"
    | _, _ => .error "index out of bounds"

/-- A 16-byte iNES header whose byte 7 is 0x08, that is with bits 2 and 3
encoding the value 2 (byte7 &&& 0x0C = 0x08): per the spec this marks an
iNES 2.0 image and must be rejected. -/
def ines20_header : List Nat :=
  [0x4E, 0x45, 0x53, 0x1A, 0, 0, 0, 0x08, 0, 0, 0, 0, 0, 0, 0, 0]

/-- A 16-byte iNES header whose byte 7 has a nonzero low bit. -/
def bad_format_header : List Nat :=
  [0x4E, 0x45, 0x53, 0x1A, 0, 0, 0, 0x01, 0, 0, 0, 0, 0, 0, 0, 0]

/- ===== ppu/registers/address.rs ===== -/

structure PPUADDR where
  vram_addr : Nat
  write_hi : Bool
deriving DecidableEq

def PPUADDR.new : PPUADDR := { vram_addr := 0, write_hi := true }

def PPUADDR.get_address (r : PPUADDR) : Nat := r.vram_addr

def PPUADDR.mirror_down (r : PPUADDR) : PPUADDR :=
  if r.vram_addr > 0x3FFF then { r with vram_addr := r.vram_addr &&& 0x3FFF }
  else r

/-- address.rs write_address: high byte on the first write, low byte folded
in by bitwise or on the second, toggling write_hi, then mirror_down. -/
def PPUADDR.write_address (r : PPUADDR) (addr : Nat) : PPUADDR :=
  let r := if r.write_hi
    then { r with vram_addr := (addr <<< 8) % 65536 }
    else { r with vram_addr := r.vram_addr ||| addr }
  let r := { r with write_hi := !r.write_hi }
  r.mirror_down

/-- address.rs increment_address. The source body is the single statement
self.vram_addr.wrapping_add(inc as u16); followed by mirror_down: the value
returned by wrapping_add is never assigned back, so the addition is dead
code and the register is only passed through mirror_down. The dead sum is
kept here as an unused binding to mirror the source line. -/
def PPUADDR.increment_address (r : PPUADDR) (inc : Nat) : PPUADDR :=
  let _dead_sum := (r.vram_addr + inc) % 65536
  r.mirror_down

def PPUADDR.reset_latch (r : PPUADDR) : PPUADDR := { r with write_hi := true }

/- ===== ppu/registers/controller.rs ===== -/

structure PPUCTRL where
  bits : Nat
deriving DecidableEq

def PPUCTRL.new : PPUCTRL := { bits := 0 }

/-- controller.rs: VRAM_ADDR_INC is bit 2; the step is 1 when it is clear
and 32 when it is set. -/
def PPUCTRL.get_vram_address_increment (c : PPUCTRL) : Nat :=
  if c.bits &&& 0b100 = 0 then 1 else 32

/-- controller.rs: GEN_NMI_VBI is bit 7. -/
def PPUCTRL.get_generate_nmi (c : PPUCTRL) : Bool :=
  c.bits &&& 0b10000000 != 0

/-- Bus-side update_bits simply stores the written byte. -/
def PPUCTRL.update_bits (_c : PPUCTRL) (bits : Nat) : PPUCTRL := { bits := bits }

/- ===== ppu/registers/status.rs ===== -/

structure PPUSTATUS where
  bits : Nat
deriving DecidableEq

def PPUSTATUS.new : PPUSTATUS := { bits := 0 }

/-- bitflags set: insert the mask when the flag is true, otherwise remove it
(mask with the complement inside a byte). -/
def PPUSTATUS.setFlag (s : PPUSTATUS) (mask : Nat) (flag : Bool) : PPUSTATUS :=
  if flag then { s with bits := s.bits ||| mask }
  else { s with bits := s.bits &&& (0xFF ^^^ mask) }

def PPUSTATUS.set_vertical_blank (s : PPUSTATUS) (flag : Bool) : PPUSTATUS :=
  s.setFlag 0b10000000 flag

def PPUSTATUS.set_sprite_zero_hit (s : PPUSTATUS) (flag : Bool) : PPUSTATUS :=
  s.setFlag 0b1000000 flag

def PPUSTATUS.get_vertical_blank (s : PPUSTATUS) : Bool :=
  s.bits &&& 0b10000000 != 0

/- ===== ppu/registers/scroll.rs ===== -/

structure PPUSCROLL where
  cam_position_x : Nat
  cam_position_y : Nat
  latch : Bool
deriving DecidableEq

def PPUSCROLL.new : PPUSCROLL :=
  { cam_position_x := 0, cam_position_y := 0, latch := true }

def PPUSCROLL.write (s : PPUSCROLL) (cam_position : Nat) : PPUSCROLL :=
  let s := if s.latch then { s with cam_position_x := cam_position }
           else { s with cam_position_y := cam_position }
  { s with latch := !s.latch }

/- ===== ppu/mod.rs ===== -/

def PPU_REG_CTRL : Nat := 0x2000

def PPU_REG_MASK : Nat := 0x2001

def PPU_REG_STATUS : Nat := 0x2002

def PPU_REG_OAMADDR : Nat := 0x2003

def PPU_REG_OAMDATA : Nat := 0x2004

def PPU_REG_SCROLL : Nat := 0x2005

def PPU_REG_ADDR : Nat := 0x2006

def PPU_REG_DATA : Nat := 0x2007

def PPU_REG_OAMDMA : Nat := 0x4014

def SCANLINE_CYCLES_COST : Nat := 341

def SCANLINE_TRIGGER_NMI : Nat := 241

def SCANLINE_PER_FRAME : Nat := 262

structure PPU where
  chr : List Nat
  palette : List Nat
  vram : List Nat
  oam : List Nat
  mirroring_type : MirroringType
  ctrl_register : PPUCTRL
  mask_register : Nat
  status_register : PPUSTATUS
  oam_address_register : Nat
  oam_data_register : Nat
  scroll_register : PPUSCROLL
  address_register : PPUADDR
  data_register : Nat
  cycles : Nat
  scanlines : Nat
  should_nmi_flag : Bool
  internal_last_read_byte : Nat
deriving DecidableEq

def PPU.new (chr : List Nat) (mirroring_type : MirroringType) : PPU :=
  { chr := chr
    palette := List.replicate 32 0
    vram := List.replicate 2048 0
    oam := List.replicate 256 0
    mirroring_type := mirroring_type
    ctrl_register := PPUCTRL.new
    mask_register := 0
    status_register := PPUSTATUS.new
    oam_address_register := 0
    oam_data_register := 0
    scroll_register := PPUSCROLL.new
    address_register := PPUADDR.new
    data_register := 0
    cycles := 0
    scanlines := 0
    should_nmi_flag := false
    internal_last_read_byte := 0 }

/-- ppu/mod.rs read (the data port). The source first fetches the current
address, then calls increment_address, then dispatches. In the chr and vram
arms it assigns the freshly indexed byte to internal_last_read_byte and
returns that same assigned value; the vram arm indexes at addr - 0x2000
(an index fault for addr ≥ 0x2800, since vram holds 2048 bytes). The
0x3000-0x3EFF arm and out-of-range indexing fault (none). -/
def PPU.read (p0 : PPU) : Option (Nat × PPU) :=
  let addr := p0.address_register.get_address
  let inc := p0.ctrl_register.get_vram_address_increment
  let p := { p0 with address_register := p0.address_register.increment_address inc }
  if addr ≤ 0x1FFF then
    match p.chr.get? addr with
    | some v => some (v, { p with internal_last_read_byte := v })
    | none => none
  else if addr ≤ 0x2FFF then
    match p.vram.get? (addr - 0x2000) with
    | some v => some (v, { p with internal_last_read_byte := v })
    | none => none
  else if addr ≤ 0x3EFF then
    none
  else if addr ≤ 0x3FFF then
    match p.palette.get? (addr - 0x3F00) with
    | some v => some (v, p)
    | none => none
  else none

/-- ppu/mod.rs write (the data port). Same address fetch and increment as
read; writing the chr range, the 0x3000-0x3EFF range, or past an array bound
is a fault (none). -/
def PPU.write (p0 : PPU) (data : Nat) : Option PPU :=
  let addr := p0.address_register.get_address
  let inc := p0.ctrl_register.get_vram_address_increment
  let p := { p0 with address_register := p0.address_register.increment_address inc }
  if addr ≤ 0x1FFF then
    none
  else if addr ≤ 0x2FFF then
    if addr - 0x2000 < p.vram.length then
      some { p with vram := p.vram.set (addr - 0x2000) data }
    else none
  else if addr ≤ 0x3EFF then
    none
  else if addr = 0x3F10 ∨ addr = 0x3F14 ∨ addr = 0x3F18 ∨ addr = 0x3F1C then
    if addr - 0x10 - 0x3F00 < p.palette.length then
      some { p with palette := p.palette.set (addr - 0x10 - 0x3F00) data }
    else none
  else if addr ≤ 0x3FFF then
    if addr - 0x3F00 < p.palette.length then
      some { p with palette := p.palette.set (addr - 0x3F00) data }
    else none
  else none

/-- ppu/mod.rs get_mirror_vram_addr. Defined in the source but never called
from the data-port read or write paths. -/
def PPU.get_mirror_vram_addr (p : PPU) (addr0 : Nat) : Nat :=
  let addr := addr0 &&& 0x2FFF
  let addr := addr - 0x2000
  let index := addr / 0x400
  match p.mirroring_type, index with
  | MirroringType.Vertical, 2 => addr - 0x800
  | MirroringType.Vertical, 3 => addr - 0x800
  | MirroringType.Horizontal, 1 => addr - 0x400
  | MirroringType.Horizontal, 2 => addr - 0x400
  | MirroringType.Horizontal, 3 => addr - 0x800
  | _, _ => addr

/-- ppu/mod.rs tick. The cycle accumulator is a 16-bit counter (additions
wrap at 65536); the scanline handling runs inside a single if, not a loop. -/
def PPU.tick (p0 : PPU) (cycles : Nat) : PPU :=
  let p := { p0 with cycles := (p0.cycles + cycles) % 65536 }
  if p.cycles ≥ SCANLINE_CYCLES_COST then
    let p := { p with cycles := p.cycles - SCANLINE_CYCLES_COST,
                      scanlines := (p.scanlines + 1) % 65536 }
    let p :=
      if p.scanlines = SCANLINE_TRIGGER_NMI then
        let p := { p with status_register :=
            (p.status_register.set_vertical_blank true).set_sprite_zero_hit false }
        if p.ctrl_register.get_generate_nmi then { p with should_nmi_flag := true }
        else p
      else p
    if p.scanlines ≥ SCANLINE_PER_FRAME then
      { p with scanlines := 0,
               should_nmi_flag := false,
               status_register :=
                 (p.status_register.set_sprite_zero_hit false).set_vertical_blank false }
    else p
  else p

/-- ppu/mod.rs should_nmi: returns and clears the pending flag. -/
def PPU.should_nmi (p : PPU) : Bool × PPU :=
  if p.should_nmi_flag then (true, { p with should_nmi_flag := false })
  else (false, p)

/- ===== bus.rs ===== -/

/-- Runtime faults of the core, surfaced where the source panics or returns
an error: write-only or read-only register access, ROM writes, PPU data-port
faults, out-of-range PRG indexing, unsupported addressing modes, and unknown
opcodes (the expect on the opcode-map lookup in the step routine). -/
inductive EmuErr where
  | readFromWriteOnly
  | statusReadTodo
  | writeToReadOnly
  | writeToROM
  | ppuFault
  | prgIndexFault
  | modeFault
  | unknownOpcode (op : Nat)
deriving DecidableEq

def RAM_BEGIN : Nat := 0x0000

def RAM_END : Nat := 0x1FFF

def PPU_REG_MIRROR_BEGIN : Nat := 0x2008

def PPU_REG_MIRROR_END : Nat := 0x3FFF

def PRG_BEGIN : Nat := 0x8000

def PRG_END : Nat := 0xFFFF

/-- bus.rs Bus: 2 KiB CPU RAM (indexed through addr &&& 0x7FF, so a total
function suffices), the PRG ROM and the PPU. -/
structure Bus where
  vram : Nat → Nat
  prg_rom : List Nat
  ppu : PPU

def Bus.new (cartridge : Cartridge) : Bus :=
  { vram := fun _ => 0
    prg_rom := cartridge.prg
    ppu := PPU.new cartridge.chr cartridge.mirroring_type }

/-- bus.rs read_prg_rom: shift down by 0x8000, mirror a 16 KiB ROM, index
(an index fault when the ROM is shorter). -/
def Bus.read_prg_rom (b : Bus) (addr0 : Nat) : Option Nat :=
  let addr := addr0 - 0x8000
  let addr := if b.prg_rom.length = 0x4000 ∧ addr ≥ 0x4000 then addr % 0x4000
              else addr
  b.prg_rom.get? addr

/-- The arms of bus.rs mem_read other than the mirror arm, in source order.
The mirror arm of mem_read recurses on addr &&& 0x2007, a value of at most
0x2007; every address below 0x2008 is handled by one of these arms, so the
recursion is one level deep and is written below as a call into this
function. Reads of write-only registers and of STATUS (a todo in the
source) are faults; unmapped addresses read 0. -/
def Bus.mem_read_base (b : Bus) (addr : Nat) : Except EmuErr (Nat × Bus) :=
  if addr ≤ RAM_END then
    .ok (b.vram (addr &&& 0x7FF), b)
  else if addr = PPU_REG_CTRL ∨ addr = PPU_REG_MASK ∨ addr = PPU_REG_OAMADDR ∨
      addr = PPU_REG_SCROLL ∨ addr = PPU_REG_ADDR ∨ addr = PPU_REG_OAMDMA then
    .error .readFromWriteOnly
  else if addr = PPU_REG_STATUS then
    .error .statusReadTodo
  else if addr = PPU_REG_OAMDATA then
    .ok (b.ppu.oam_data_register, b)
  else if addr = PPU_REG_DATA then
    match b.ppu.read with
    | some (v, p) => .ok (v, { b with ppu := p })
    | none => .error .ppuFault
  else if PRG_BEGIN ≤ addr ∧ addr ≤ PRG_END then
    match b.read_prg_rom addr with
    | some v => .ok (v, b)
    | none => .error .prgIndexFault
  else
    .ok (0, b)

/-- bus.rs mem_read, arm for arm: the same chain as mem_read_base with the
PPU register mirror arm in its source position, resolved through
mem_read_base on addr &&& 0x2007 (the recursion of the source, which is one
level deep). -/
def Bus.mem_read (b : Bus) (addr : Nat) : Except EmuErr (Nat × Bus) :=
  if addr ≤ RAM_END then
    .ok (b.vram (addr &&& 0x7FF), b)
  else if addr = PPU_REG_CTRL ∨ addr = PPU_REG_MASK ∨ addr = PPU_REG_OAMADDR ∨
      addr = PPU_REG_SCROLL ∨ addr = PPU_REG_ADDR ∨ addr = PPU_REG_OAMDMA then
    .error .readFromWriteOnly
  else if addr = PPU_REG_STATUS then
    .error .statusReadTodo
  else if addr = PPU_REG_OAMDATA then
    .ok (b.ppu.oam_data_register, b)
  else if addr = PPU_REG_DATA then
    match b.ppu.read with
    | some (v, p) => .ok (v, { b with ppu := p })
    | none => .error .ppuFault
  else if PPU_REG_MIRROR_BEGIN ≤ addr ∧ addr ≤ PPU_REG_MIRROR_END then
    b.mem_read_base (addr &&& 0x2007)
  else if PRG_BEGIN ≤ addr ∧ addr ≤ PRG_END then
    match b.read_prg_rom addr with
    | some v => .ok (v, b)
    | none => .error .prgIndexFault
  else
    .ok (0, b)

/-- bus.rs mem_write, arm for arm. The arm for the PPU register mirror range
0x2008-0x3FFF is empty in the source (only a comment), so such writes leave
the bus unchanged; STATUS writes and PRG writes are faults; unmapped
addresses ignore the write. -/
def Bus.mem_write (b : Bus) (addr : Nat) (data : Nat) : Except EmuErr Bus :=
  if addr ≤ RAM_END then
    .ok { b with vram := fun i => if i = (addr &&& 0x7FF) then data else b.vram i }
  else if addr = PPU_REG_CTRL then
    .ok { b with ppu := { b.ppu with ctrl_register := b.ppu.ctrl_register.update_bits data } }
  else if addr = PPU_REG_MASK then
    .ok { b with ppu := { b.ppu with mask_register := data } }
  else if addr = PPU_REG_STATUS then
    .error .writeToReadOnly
  else if addr = PPU_REG_OAMADDR then
    .ok { b with ppu := { b.ppu with oam_address_register := data } }
  else if addr = PPU_REG_OAMDATA then
    .ok { b with ppu := { b.ppu with oam_data_register := data } }
  else if addr = PPU_REG_SCROLL then
    .ok { b with ppu := { b.ppu with scroll_register := b.ppu.scroll_register.write data } }
  else if addr = PPU_REG_ADDR then
    .ok { b with ppu := { b.ppu with address_register := b.ppu.address_register.write_address data } }
  else if addr = PPU_REG_DATA then
    match b.ppu.write data with
    | some p => .ok { b with ppu := p }
    | none => .error .ppuFault
  else if PPU_REG_MIRROR_BEGIN ≤ addr ∧ addr ≤ PPU_REG_MIRROR_END then
    .ok b
  else if PRG_BEGIN ≤ addr ∧ addr ≤ PRG_END then
    .error .writeToROM
  else
    .ok b

/-- bus.rs mem_read_u16: little-endian pair of bus reads (used by the CPU
through its Memory impl). -/
def Bus.mem_read_u16 (b : Bus) (addr : Nat) : Except EmuErr (Nat × Bus) := do
  let (lo, b) ← b.mem_read addr
  let (hi, b) ← Bus.mem_read b ((addr + 1) % 65536)
  .ok ((hi <<< 8) ||| lo, b)

/-- A bus over an empty NROM image, used for concrete evaluations. -/
def bus0 : Bus :=
  { vram := fun _ => 0
    prg_rom := []
    ppu := PPU.new [] MirroringType.Horizontal }

/- ===== cpu/mod.rs and cpu/instructions ===== -/

inductive AddressMode where
  | Immediate
  | ZeroPage
  | ZeroPageX
  | ZeroPageY
  | Absolute
  | AbsoluteX
  | AbsoluteY
  | IndirectX
  | IndirectY
  | NoneAddressing
deriving DecidableEq

def CPUStatus.NEGATIVE : Nat := 0b10000000

def CPUStatus.OVERFLOW : Nat := 0b01000000

def CPUStatus.UNUSED : Nat := 0b00100000

def CPUStatus.BREAK : Nat := 0b00010000

def CPUStatus.DECIMAL : Nat := 0b00001000

def CPUStatus.INTERRUPT_DISABLE : Nat := 0b00000100

def CPUStatus.ZERO : Nat := 0b00000010

def CPUStatus.CARRY : Nat := 0b00000001

/-- bitflags insert: set the bits of the mask. -/
def statusInsert (s m : Nat) : Nat := s ||| m

/-- bitflags remove: clear the bits of the mask (complement within a byte). -/
def statusRemove (s m : Nat) : Nat := s &&& (0xFF ^^^ m)

/-- bitflags contains: every bit of the mask is set. -/
def statusContains (s m : Nat) : Bool := s &&& m == m

def RESET_INTERRUPT_MEM_LOC : Nat := 0xFFFC

def STACK_BOTTOM_LOC : Nat := 0x0100

def STACK_RESET_LOC : Nat := 0xFD

structure CPU where
  pc : Nat
  sp : Nat
  acc : Nat
  rx : Nat
  ry : Nat
  status : Nat
  bus : Bus

/-- CPU memory access forwards to the bus (cpu/mod.rs Memory impl). -/
def CPU.mem_read (cpu : CPU) (addr : Nat) : Except EmuErr (Nat × CPU) :=
  match cpu.bus.mem_read addr with
  | .ok (v, b) => .ok (v, { cpu with bus := b })
  | .error e => .error e

def CPU.mem_write (cpu : CPU) (addr data : Nat) : Except EmuErr CPU :=
  match cpu.bus.mem_write addr data with
  | .ok b => .ok { cpu with bus := b }
  | .error e => .error e

def CPU.mem_read_u16 (cpu : CPU) (addr : Nat) : Except EmuErr (Nat × CPU) :=
  match cpu.bus.mem_read_u16 addr with
  | .ok (v, b) => .ok (v, { cpu with bus := b })
  | .error e => .error e

/- instructions/common.rs flag helpers -/

def update_zero_flag (cpu : CPU) (flag : Nat) : CPU :=
  if flag = 0 then { cpu with status := statusInsert cpu.status CPUStatus.ZERO }
  else { cpu with status := statusRemove cpu.status CPUStatus.ZERO }

def update_neg_flag (cpu : CPU) (flag : Nat) : CPU :=
  if flag &&& 0b10000000 ≠ 0 then
    { cpu with status := statusInsert cpu.status CPUStatus.NEGATIVE }
  else { cpu with status := statusRemove cpu.status CPUStatus.NEGATIVE }

def update_overflow_flag (cpu : CPU) (flag : Bool) : CPU :=
  if flag then { cpu with status := statusInsert cpu.status CPUStatus.OVERFLOW }
  else { cpu with status := statusRemove cpu.status CPUStatus.OVERFLOW }

def update_carry_flag (cpu : CPU) (flag : Bool) : CPU :=
  if flag then { cpu with status := statusInsert cpu.status CPUStatus.CARRY }
  else { cpu with status := statusRemove cpu.status CPUStatus.CARRY }

/- instructions/common.rs stack helpers. The stack pointer is a byte and
wraps; pushes store at 0x0100 + SP then decrement, pops increment then
read. -/

def stack_push (cpu : CPU) (value : Nat) : Except EmuErr CPU := do
  let cpu ← cpu.mem_write (cpu.sp + STACK_BOTTOM_LOC) value
  .ok { cpu with sp := (cpu.sp + 255) % 256 }

def stack_pop (cpu : CPU) : Except EmuErr (Nat × CPU) := do
  let cpu := { cpu with sp := (cpu.sp + 1) % 256 }
  cpu.mem_read (cpu.sp + STACK_BOTTOM_LOC)

def stack_push_u16 (cpu : CPU) (value : Nat) : Except EmuErr CPU := do
  let cpu ← stack_push cpu ((value >>> 8) % 256)
  stack_push cpu (value % 256)

def stack_pop_u16 (cpu : CPU) : Except EmuErr (Nat × CPU) := do
  let (lo, cpu) ← stack_pop cpu
  let (hi, cpu) ← stack_pop cpu
  .ok ((hi <<< 8) ||| lo, cpu)

/-- instructions/common.rs compare: carry from v1 ≥ v2, zero and negative
from the wrapping byte difference. -/
def compare (cpu : CPU) (v1 v2 : Nat) : CPU :=
  let cpu := update_carry_flag cpu (decide (v1 ≥ v2))
  let res := (v1 + 256 - v2 % 256) % 256
  let cpu := update_zero_flag cpu res
  update_neg_flag cpu res

/-- instructions/common.rs branch: the operand byte is a signed offset
relative to the byte after it (sign-extended to 16 bits). -/
def branch (cpu : CPU) (flag : Bool) : Except EmuErr CPU :=
  if flag then do
    let (offset, cpu) ← cpu.mem_read cpu.pc
    let off16 := if offset ≥ 0x80 then 0xFF00 ||| offset else offset
    .ok { cpu with pc := ((cpu.pc + 1) % 65536 + off16) % 65536 }
  else .ok cpu

/-- instructions/common.rs add_to_acc: 16-bit sum of accumulator, operand
and carry-in; carry from bit 8, overflow from (M xor res) and (A xor res)
bit 7. The source updates no other flag here. -/
def add_to_acc (cpu : CPU) (data : Nat) : CPU :=
  let cur_carry : Nat := if statusContains cpu.status CPUStatus.CARRY then 1 else 0
  let sum := cpu.acc + data + cur_carry
  let cpu1 := update_carry_flag cpu (decide (sum > 0xFF))
  let res := sum % 256
  let cpu2 := update_overflow_flag cpu1
    (decide ((data ^^^ res) &&& (cpu.acc ^^^ res) &&& 0x80 ≠ 0))
  { cpu2 with acc := res }

/- cpu/mod.rs addressing -/

def CPU.get_absolute_address (cpu : CPU) (mode : AddressMode) (addr : Nat) :
    Except EmuErr (Nat × CPU) :=
  match mode with
  | .ZeroPage => cpu.mem_read addr
  | .ZeroPageX => do
      let (pos, cpu) ← cpu.mem_read addr
      .ok ((pos + cpu.rx) % 256, cpu)
  | .ZeroPageY => do
      let (pos, cpu) ← cpu.mem_read addr
      .ok ((pos + cpu.ry) % 256, cpu)
  | .Absolute => cpu.mem_read_u16 addr
  | .AbsoluteX => do
      let (pos, cpu) ← cpu.mem_read_u16 addr
      .ok ((pos + cpu.rx) % 65536, cpu)
  | .AbsoluteY => do
      let (pos, cpu) ← cpu.mem_read_u16 addr
      .ok ((pos + cpu.ry) % 65536, cpu)
  | .IndirectX => do
      let (base, cpu) ← cpu.mem_read addr
      let ptr := (base + cpu.rx) % 256
      let (lo, cpu) ← cpu.mem_read ptr
      let (hi, cpu) ← cpu.mem_read ((ptr + 1) % 256)
      .ok ((hi <<< 8) ||| lo, cpu)
  | .IndirectY => do
      let (base, cpu) ← cpu.mem_read addr
      let (lo, cpu) ← cpu.mem_read base
      let (hi, cpu) ← cpu.mem_read ((base + 1) % 256)
      .ok ((((hi <<< 8) ||| lo) + cpu.ry) % 65536, cpu)
  | _ => .error .modeFault

def CPU.get_operand_address (cpu : CPU) (mode : AddressMode) :
    Except EmuErr (Nat × CPU) :=
  match mode with
  | .Immediate => .ok (cpu.pc, cpu)
  | _ => cpu.get_absolute_address mode cpu.pc

/- instructions/transfer.rs -/

def sbc (cpu : CPU) (mode : AddressMode) : Except EmuErr CPU := do
  let (addr, cpu) ← cpu.get_operand_address mode
  let (value, cpu) ← cpu.mem_read addr
  add_to_acc cpu (((256 - value % 256) % 256 + 255) % 256) |> .ok

def dex (cpu : CPU) : CPU :=
  let cpu := { cpu with rx := (cpu.rx + 255) % 256 }
  update_neg_flag (update_zero_flag cpu cpu.rx) cpu.rx

def dey (cpu : CPU) : CPU :=
  let cpu := { cpu with ry := (cpu.ry + 255) % 256 }
  update_neg_flag (update_zero_flag cpu cpu.ry) cpu.ry

def inx (cpu : CPU) : CPU :=
  let cpu := { cpu with rx := (cpu.rx + 1) % 256 }
  update_neg_flag (update_zero_flag cpu cpu.rx) cpu.rx

def iny (cpu : CPU) : CPU :=
  let cpu := { cpu with ry := (cpu.ry + 1) % 256 }
  update_neg_flag (update_zero_flag cpu cpu.ry) cpu.ry

def lda (cpu : CPU) (mode : AddressMode) : Except EmuErr CPU := do
  let (addr, cpu) ← cpu.get_operand_address mode
  let (value, cpu) ← cpu.mem_read addr
  let cpu := { cpu with acc := value }
  update_zero_flag (update_neg_flag cpu value) value |> .ok

def ldx (cpu : CPU) (mode : AddressMode) : Except EmuErr CPU := do
  let (addr, cpu) ← cpu.get_operand_address mode
  let (value, cpu) ← cpu.mem_read addr
  let cpu := { cpu with rx := value }
  update_zero_flag (update_neg_flag cpu value) value |> .ok

def ldy (cpu : CPU) (mode : AddressMode) : Except EmuErr CPU := do
  let (addr, cpu) ← cpu.get_operand_address mode
  let (value, cpu) ← cpu.mem_read addr
  let cpu := { cpu with ry := value }
  update_zero_flag (update_neg_flag cpu value) value |> .ok

def tax (cpu : CPU) : CPU :=
  let cpu := { cpu with rx := cpu.acc }
  update_zero_flag (update_neg_flag cpu cpu.rx) cpu.rx

def tay (cpu : CPU) : CPU :=
  let cpu := { cpu with ry := cpu.acc }
  update_zero_flag (update_neg_flag cpu cpu.ry) cpu.ry

def txa (cpu : CPU) : CPU :=
  let cpu := { cpu with acc := cpu.rx }
  update_zero_flag (update_neg_flag cpu cpu.acc) cpu.acc

def tya (cpu : CPU) : CPU :=
  let cpu := { cpu with acc := cpu.ry }
  update_zero_flag (update_neg_flag cpu cpu.acc) cpu.acc

def tsx (cpu : CPU) : CPU :=
  let cpu := { cpu with rx := cpu.sp }
  update_zero_flag (update_neg_flag cpu cpu.rx) cpu.rx

/-- transfer.rs txs: the source also updates N and Z from the new SP. -/
def txs (cpu : CPU) : CPU :=
  let cpu := { cpu with sp := cpu.rx }
  update_zero_flag (update_neg_flag cpu cpu.sp) cpu.sp

/- instructions/memory.rs -/

def dec (cpu : CPU) (mode : AddressMode) : Except EmuErr CPU := do
  let (addr, cpu) ← cpu.get_operand_address mode
  let (value, cpu) ← cpu.mem_read addr
  let res := (value + 255) % 256
  let cpu := update_neg_flag (update_zero_flag cpu res) res
  cpu.mem_write addr res

def inc (cpu : CPU) (mode : AddressMode) : Except EmuErr CPU := do
  let (addr, cpu) ← cpu.get_operand_address mode
  let (value, cpu) ← cpu.mem_read addr
  let res := (value + 1) % 256
  let cpu := update_neg_flag (update_zero_flag cpu res) res
  cpu.mem_write addr res

def sta (cpu : CPU) (mode : AddressMode) : Except EmuErr CPU := do
  let (addr, cpu) ← cpu.get_operand_address mode
  cpu.mem_write addr cpu.acc

def stx (cpu : CPU) (mode : AddressMode) : Except EmuErr CPU := do
  let (addr, cpu) ← cpu.get_operand_address mode
  cpu.mem_write addr cpu.rx

def sty (cpu : CPU) (mode : AddressMode) : Except EmuErr CPU := do
  let (addr, cpu) ← cpu.get_operand_address mode
  cpu.mem_write addr cpu.ry

/- instructions/bitwise.rs -/

def adc (cpu : CPU) (mode : AddressMode) : Except EmuErr CPU := do
  let (addr, cpu) ← cpu.get_operand_address mode
  let (data, cpu) ← cpu.mem_read addr
  add_to_acc cpu data |> .ok

def and (cpu : CPU) (mode : AddressMode) : Except EmuErr CPU := do
  let (addr, cpu) ← cpu.get_operand_address mode
  let (value, cpu) ← cpu.mem_read addr
  let res := cpu.acc &&& value
  let cpu := update_neg_flag (update_zero_flag cpu res) res
  .ok { cpu with acc := res }

def ora (cpu : CPU) (mode : AddressMode) : Except EmuErr CPU := do
  let (addr, cpu) ← cpu.get_operand_address mode
  let (value, cpu) ← cpu.mem_read addr
  let res := cpu.acc ||| value
  let cpu := update_neg_flag (update_zero_flag cpu res) res
  .ok { cpu with acc := res }

def eor (cpu : CPU) (mode : AddressMode) : Except EmuErr CPU := do
  let (addr, cpu) ← cpu.get_operand_address mode
  let (value, cpu) ← cpu.mem_read addr
  let res := cpu.acc ^^^ value
  let cpu := update_neg_flag (update_zero_flag cpu res) res
  .ok { cpu with acc := res }

def rol_acc (cpu : CPU) : CPU :=
  let res := ((cpu.acc <<< 1) % 256) ||| (0x01 &&& cpu.status)
  let cpu1 := update_carry_flag cpu (decide (cpu.acc >>> 7 = 1))
  let cpu2 := update_neg_flag (update_zero_flag cpu1 res) res
  { cpu2 with acc := res }

def rol (cpu : CPU) (mode : AddressMode) : Except EmuErr CPU := do
  let (addr, cpu) ← cpu.get_operand_address mode
  let (value, cpu) ← cpu.mem_read addr
  let res := ((value <<< 1) % 256) ||| (0x01 &&& cpu.status)
  let cpu := update_carry_flag cpu (decide (value >>> 7 = 1))
  let cpu := update_neg_flag (update_zero_flag cpu res) res
  cpu.mem_write addr res

def ror_acc (cpu : CPU) : CPU :=
  let res := (cpu.acc >>> 1) ||| ((cpu.status <<< 7) % 256)
  let cpu1 := update_carry_flag cpu (decide (cpu.acc &&& 0x01 = 1))
  let cpu2 := update_neg_flag (update_zero_flag cpu1 res) res
  { cpu2 with acc := res }

/-- bitwise.rs ror on memory: the source stores the result into the
accumulator instead of writing it back to memory. -/
def ror (cpu : CPU) (mode : AddressMode) : Except EmuErr CPU := do
  let (addr, cpu) ← cpu.get_operand_address mode
  let (value, cpu) ← cpu.mem_read addr
  let res := (value >>> 1) ||| ((cpu.status <<< 7) % 256)
  let cpu := update_carry_flag cpu (decide (value &&& 0x01 = 1))
  let cpu := update_neg_flag (update_zero_flag cpu res) res
  .ok { cpu with acc := res }

def lsr_acc (cpu : CPU) : CPU :=
  let res := cpu.acc >>> 1
  let cpu1 := update_carry_flag cpu (decide (cpu.acc &&& 0x1 = 1))
  let cpu2 := update_neg_flag (update_zero_flag cpu1 res) res
  { cpu2 with acc := res }

def lsr (cpu : CPU) (mode : AddressMode) : Except EmuErr CPU := do
  let (addr, cpu) ← cpu.get_operand_address mode
  let (value, cpu) ← cpu.mem_read addr
  let res := value >>> 1
  let cpu := update_carry_flag cpu (decide (value &&& 0x01 = 1))
  let cpu := update_neg_flag (update_zero_flag cpu res) res
  cpu.mem_write addr res

def asl_acc (cpu : CPU) : CPU :=
  let cpu1 := update_carry_flag cpu (decide (cpu.acc >>> 7 = 1))
  let res := (cpu1.acc <<< 1) % 256
  let cpu2 := update_zero_flag (update_neg_flag cpu1 res) res
  { cpu2 with acc := res }

def asl (cpu : CPU) (mode : AddressMode) : Except EmuErr CPU := do
  let (addr, cpu) ← cpu.get_operand_address mode
  let (value, cpu) ← cpu.mem_read addr
  let cpu := update_carry_flag cpu (decide (value >>> 7 = 1))
  let res := (value <<< 1) % 256
  let cpu := update_zero_flag (update_neg_flag cpu res) res
  cpu.mem_write addr res

/- instructions/branch.rs -/

def bcc (cpu : CPU) : Except EmuErr CPU :=
  branch cpu (!(statusContains cpu.status CPUStatus.CARRY))

def bcs (cpu : CPU) : Except EmuErr CPU :=
  branch cpu (statusContains cpu.status CPUStatus.CARRY)

def beq (cpu : CPU) : Except EmuErr CPU :=
  branch cpu (statusContains cpu.status CPUStatus.ZERO)

def bmi (cpu : CPU) : Except EmuErr CPU :=
  branch cpu (statusContains cpu.status CPUStatus.NEGATIVE)

def bne (cpu : CPU) : Except EmuErr CPU :=
  branch cpu (!(statusContains cpu.status CPUStatus.ZERO))

def bpl (cpu : CPU) : Except EmuErr CPU :=
  branch cpu (!(statusContains cpu.status CPUStatus.NEGATIVE))

def bvc (cpu : CPU) : Except EmuErr CPU :=
  branch cpu (!(statusContains cpu.status CPUStatus.OVERFLOW))

def bvs (cpu : CPU) : Except EmuErr CPU :=
  branch cpu (statusContains cpu.status CPUStatus.OVERFLOW)

/- instructions/compare.rs -/

def cmp (cpu : CPU) (mode : AddressMode) : Except EmuErr CPU := do
  let (addr, cpu) ← cpu.get_operand_address mode
  let (value, cpu) ← cpu.mem_read addr
  compare cpu cpu.acc value |> .ok

def cpx (cpu : CPU) (mode : AddressMode) : Except EmuErr CPU := do
  let (addr, cpu) ← cpu.get_operand_address mode
  let (value, cpu) ← cpu.mem_read addr
  compare cpu cpu.rx value |> .ok

def cpy (cpu : CPU) (mode : AddressMode) : Except EmuErr CPU := do
  let (addr, cpu) ← cpu.get_operand_address mode
  let (value, cpu) ← cpu.mem_read addr
  compare cpu cpu.ry value |> .ok

/- instructions/stack.rs -/

def php (cpu : CPU) : Except EmuErr CPU :=
  stack_push cpu ((statusInsert (statusInsert cpu.status CPUStatus.BREAK)
    CPUStatus.UNUSED))

def plp (cpu : CPU) : Except EmuErr CPU := do
  let (s, cpu) ← stack_pop cpu
  .ok { cpu with status := statusRemove s CPUStatus.BREAK }

def pha (cpu : CPU) : Except EmuErr CPU := stack_push cpu cpu.acc

def pla (cpu : CPU) : Except EmuErr CPU := do
  let (v, cpu) ← stack_pop cpu
  let cpu := { cpu with acc := v }
  update_zero_flag (update_neg_flag cpu cpu.acc) cpu.acc |> .ok

/- instructions/status.rs -/

def clc (cpu : CPU) : CPU :=
  { cpu with status := statusRemove cpu.status CPUStatus.CARRY }

def cld (cpu : CPU) : CPU :=
  { cpu with status := statusRemove cpu.status CPUStatus.DECIMAL }

def cli (cpu : CPU) : CPU :=
  { cpu with status := statusRemove cpu.status CPUStatus.INTERRUPT_DISABLE }

def clv (cpu : CPU) : CPU :=
  { cpu with status := statusRemove cpu.status CPUStatus.OVERFLOW }

def sec (cpu : CPU) : CPU :=
  { cpu with status := statusInsert cpu.status CPUStatus.CARRY }

def sed (cpu : CPU) : CPU :=
  { cpu with status := statusInsert cpu.status CPUStatus.DECIMAL }

def sei (cpu : CPU) : CPU :=
  { cpu with status := statusInsert cpu.status CPUStatus.INTERRUPT_DISABLE }

/-- status.rs bit: the source compares value &&& 0x40 with 1 for the
overflow update (only ever false). -/
def bit (cpu : CPU) (mode : AddressMode) : Except EmuErr CPU := do
  let (addr, cpu) ← cpu.get_operand_address mode
  let (value, cpu) ← cpu.mem_read addr
  let cpu := update_neg_flag cpu value
  let cpu := update_overflow_flag cpu (decide (value &&& 0b01000000 = 1))
  update_zero_flag cpu (cpu.acc &&& value) |> .ok

/- instructions/jump.rs -/

def jsr (cpu : CPU) (mode : AddressMode) : Except EmuErr CPU := do
  let cpu ← stack_push_u16 cpu ((cpu.pc + 1) % 65536)
  let (addr, cpu) ← cpu.get_operand_address mode
  .ok { cpu with pc := addr }

def rts (cpu : CPU) : Except EmuErr CPU := do
  let (v, cpu) ← stack_pop_u16 cpu
  .ok { cpu with pc := (v + 1) % 65536 }

def rti (cpu : CPU) : Except EmuErr CPU := do
  let (s, cpu) ← stack_pop cpu
  let cpu := { cpu with status := statusRemove s CPUStatus.BREAK }
  let (v, cpu) ← stack_pop_u16 cpu
  .ok { cpu with pc := v }

/- ===== cpu/opcode.rs ===== -/

structure Opcode where
  op : Nat
  name : String
  bytes : Nat
  cycles : Nat
  mode : AddressMode
deriving DecidableEq

def Opcode.new (op : Nat) (name : String) (bytes : Nat) (cycles : Nat)
    (mode : AddressMode) : Opcode :=
  ⟨op, name, bytes, cycles, mode⟩

/-- The static opcode registry, entry for entry from cpu/opcode.rs (122
entries; the source writes 0xAc and 0xBc for the absolute LDY pair). -/
def OPCODES : List Opcode := [
  Opcode.new 0x00 "BRK" 1 7 .NoneAddressing,
  Opcode.new 0xAA "TAX" 1 2 .NoneAddressing,
  Opcode.new 0xA8 "TAY" 1 2 .NoneAddressing,
  Opcode.new 0x8A "TXA" 1 2 .NoneAddressing,
  Opcode.new 0x98 "TYA" 1 2 .NoneAddressing,
  Opcode.new 0xBA "TSX" 1 2 .NoneAddressing,
  Opcode.new 0x9A "TXS" 1 2 .NoneAddressing,
  Opcode.new 0xA9 "LDA" 2 2 .Immediate,
  Opcode.new 0xA5 "LDA" 2 3 .ZeroPage,
  Opcode.new 0xB5 "LDA" 2 4 .ZeroPageX,
  Opcode.new 0xAD "LDA" 3 4 .Absolute,
  Opcode.new 0xBD "LDA" 3 4 .AbsoluteX,
  Opcode.new 0xB9 "LDA" 3 4 .AbsoluteY,
  Opcode.new 0xA1 "LDA" 2 6 .IndirectX,
  Opcode.new 0xB1 "LDA" 2 5 .IndirectY,
  Opcode.new 0xA2 "LDX" 2 2 .Immediate,
  Opcode.new 0xA6 "LDX" 2 3 .ZeroPage,
  Opcode.new 0xB6 "LDX" 2 4 .ZeroPageY,
  Opcode.new 0xAE "LDX" 3 4 .Absolute,
  Opcode.new 0xBE "LDX" 3 4 .AbsoluteY,
  Opcode.new 0xA0 "LDY" 2 2 .Immediate,
  Opcode.new 0xA4 "LDY" 2 3 .ZeroPage,
  Opcode.new 0xB4 "LDY" 2 4 .ZeroPageX,
  Opcode.new 0xAC "LDY" 3 4 .Absolute,
  Opcode.new 0xBC "LDY" 3 4 .AbsoluteX,
  Opcode.new 0x85 "STA" 2 3 .ZeroPage,
  Opcode.new 0x95 "STA" 2 4 .ZeroPageX,
  Opcode.new 0x8D "STA" 3 4 .Absolute,
  Opcode.new 0x9D "STA" 3 5 .AbsoluteX,
  Opcode.new 0x99 "STA" 3 5 .AbsoluteY,
  Opcode.new 0x81 "STA" 2 6 .IndirectX,
  Opcode.new 0x91 "STA" 2 6 .IndirectX,
  Opcode.new 0x86 "STX" 2 3 .ZeroPage,
  Opcode.new 0x96 "STX" 2 4 .ZeroPageY,
  Opcode.new 0x8E "STX" 3 4 .Absolute,
  Opcode.new 0x84 "STY" 2 3 .ZeroPage,
  Opcode.new 0x94 "STY" 2 4 .ZeroPageX,
  Opcode.new 0x8C "STY" 3 4 .Absolute,
  Opcode.new 0x69 "ADC" 2 2 .Immediate,
  Opcode.new 0x65 "ADC" 2 3 .ZeroPage,
  Opcode.new 0x75 "ADC" 2 4 .ZeroPageX,
  Opcode.new 0x6D "ADC" 3 4 .Absolute,
  Opcode.new 0x7D "ADC" 3 4 .AbsoluteX,
  Opcode.new 0x79 "ADC" 3 4 .AbsoluteY,
  Opcode.new 0x61 "ADC" 2 6 .IndirectX,
  Opcode.new 0x71 "ADC" 2 5 .IndirectY,
  Opcode.new 0x29 "AND" 2 2 .Immediate,
  Opcode.new 0x25 "AND" 2 3 .ZeroPage,
  Opcode.new 0x35 "AND" 2 4 .ZeroPageX,
  Opcode.new 0x2D "AND" 3 4 .Absolute,
  Opcode.new 0x3D "AND" 3 4 .AbsoluteX,
  Opcode.new 0x39 "AND" 3 4 .AbsoluteY,
  Opcode.new 0x21 "AND" 2 6 .IndirectX,
  Opcode.new 0x31 "AND" 2 5 .IndirectY,
  Opcode.new 0x49 "EOR" 2 2 .Immediate,
  Opcode.new 0x45 "EOR" 2 3 .ZeroPage,
  Opcode.new 0x55 "EOR" 2 4 .ZeroPageX,
  Opcode.new 0x4D "EOR" 3 4 .Absolute,
  Opcode.new 0x5D "EOR" 3 4 .AbsoluteX,
  Opcode.new 0x59 "EOR" 3 4 .AbsoluteY,
  Opcode.new 0x41 "EOR" 2 6 .IndirectX,
  Opcode.new 0x51 "EOR" 2 5 .IndirectY,
  Opcode.new 0x0A "ASL" 1 2 .NoneAddressing,
  Opcode.new 0x06 "ASL" 2 5 .ZeroPage,
  Opcode.new 0x16 "ASL" 2 6 .ZeroPageX,
  Opcode.new 0x0E "ASL" 3 6 .Absolute,
  Opcode.new 0x1E "ASL" 3 7 .AbsoluteX,
  Opcode.new 0xE9 "SBC" 2 2 .Immediate,
  Opcode.new 0xE5 "SBC" 2 3 .ZeroPage,
  Opcode.new 0xF5 "SBC" 2 4 .ZeroPageX,
  Opcode.new 0xED "SBC" 3 4 .Absolute,
  Opcode.new 0xFD "SBC" 3 4 .AbsoluteX,
  Opcode.new 0xF9 "SBC" 3 4 .AbsoluteY,
  Opcode.new 0xE1 "SBC" 2 6 .IndirectX,
  Opcode.new 0xF1 "SBC" 2 5 .IndirectY,
  Opcode.new 0x08 "PHP" 1 3 .NoneAddressing,
  Opcode.new 0x28 "PLP" 1 4 .NoneAddressing,
  Opcode.new 0x90 "BCC" 2 2 .NoneAddressing,
  Opcode.new 0xB0 "BCS" 2 2 .NoneAddressing,
  Opcode.new 0xF0 "BEQ" 2 2 .NoneAddressing,
  Opcode.new 0x30 "BMI" 2 2 .NoneAddressing,
  Opcode.new 0xD0 "BNE" 2 2 .NoneAddressing,
  Opcode.new 0x10 "BPL" 2 2 .NoneAddressing,
  Opcode.new 0x50 "BVC" 2 2 .NoneAddressing,
  Opcode.new 0x70 "BVS" 2 2 .NoneAddressing,
  Opcode.new 0x24 "BIT" 2 3 .ZeroPage,
  Opcode.new 0x2C "BIT" 3 4 .Absolute,
  Opcode.new 0x18 "CLC" 1 2 .NoneAddressing,
  Opcode.new 0xD8 "CLD" 1 2 .NoneAddressing,
  Opcode.new 0x58 "CLI" 1 2 .NoneAddressing,
  Opcode.new 0xB8 "CLV" 1 2 .NoneAddressing,
  Opcode.new 0xC9 "CMP" 2 2 .Immediate,
  Opcode.new 0xC5 "CMP" 2 3 .ZeroPage,
  Opcode.new 0xD5 "CMP" 2 4 .ZeroPageX,
  Opcode.new 0xCD "CMP" 3 4 .Absolute,
  Opcode.new 0xDD "CMP" 3 4 .AbsoluteX,
  Opcode.new 0xD9 "CMP" 3 4 .AbsoluteY,
  Opcode.new 0xC1 "CMP" 2 6 .IndirectX,
  Opcode.new 0xD1 "CMP" 2 5 .IndirectY,
  Opcode.new 0xE0 "CPX" 2 2 .Immediate,
  Opcode.new 0xE4 "CPX" 2 3 .ZeroPage,
  Opcode.new 0xEC "CPX" 3 4 .Absolute,
  Opcode.new 0xC0 "CPY" 2 2 .Immediate,
  Opcode.new 0xC4 "CPY" 2 3 .ZeroPage,
  Opcode.new 0xCC "CPY" 3 4 .Absolute,
  Opcode.new 0xC6 "DEC" 2 5 .ZeroPage,
  Opcode.new 0xD6 "DEC" 2 6 .ZeroPageX,
  Opcode.new 0xCE "DEC" 3 6 .Absolute,
  Opcode.new 0xDE "DEC" 3 7 .AbsoluteX,
  Opcode.new 0xCA "DEX" 1 2 .NoneAddressing,
  Opcode.new 0x88 "DEY" 1 2 .NoneAddressing,
  Opcode.new 0xE6 "INC" 2 5 .ZeroPage,
  Opcode.new 0xF6 "INC" 2 6 .ZeroPageX,
  Opcode.new 0xEE "INC" 3 6 .Absolute,
  Opcode.new 0xFE "INC" 3 7 .AbsoluteX,
  Opcode.new 0xE8 "INX" 1 2 .NoneAddressing,
  Opcode.new 0xC8 "INY" 1 2 .NoneAddressing,
  Opcode.new 0x20 "JSR" 3 6 .Absolute,
  Opcode.new 0x60 "RTS" 1 6 .NoneAddressing,
  Opcode.new 0x38 "SEC" 1 2 .NoneAddressing,
  Opcode.new 0xF8 "SED" 1 2 .NoneAddressing,
  Opcode.new 0x78 "SEI" 1 2 .NoneAddressing]

/-- OPCODES_MAP lookup. The HashMap is keyed by the op byte; op bytes are
unique in OPCODES, so a lookup is the first (and only) match in the list. -/
def OPCODES_MAP_get (op : Nat) : Option Opcode :=
  OPCODES.find? (fun code => code.op == op)

/- ===== cpu/mod.rs execution ===== -/

/-- cpu/mod.rs reset: zero the data registers, status back to UNUSED, PC
from the reset vector, SP to the reset value. -/
def CPU.reset (cpu : CPU) : Except EmuErr CPU := do
  let cpu := { cpu with acc := 0, rx := 0, ry := 0, status := CPUStatus.UNUSED }
  let (v, cpu) ← cpu.mem_read_u16 RESET_INTERRUPT_MEM_LOC
  .ok { cpu with pc := v, sp := STACK_RESET_LOC }

/-- The opcode dispatch match of interprect_with_callback, arm for arm (the
source inlines it in the routine; it is split out here only to keep the
definition readable). The 0x00 arm calls reset as the source does; the
final catch-all arm does nothing. -/
def execute_opcode (cpu : CPU) (op : Nat) (code : Opcode) : Except EmuErr CPU :=
  match op with
  | 0x00 => cpu.reset
  | 0xEA => .ok cpu
  | 0xAA => .ok (tax cpu)
  | 0xA8 => .ok (tay cpu)
  | 0x8A => .ok (txa cpu)
  | 0x98 => .ok (tya cpu)
  | 0xBA => .ok (tsx cpu)
  | 0x9A => .ok (txs cpu)
  | 0xA9 | 0xA5 | 0xB5 | 0xAD | 0xBD | 0xB9 | 0xA1 | 0xB1 =>
    lda cpu code.mode
  | 0xA2 | 0xA6 | 0xB6 | 0xAE | 0xBE =>
    ldx cpu code.mode
  | 0xA0 | 0xA4 | 0xB4 | 0xAC | 0xBC =>
    ldy cpu code.mode
  | 0x85 | 0x95 | 0x8D | 0x9D | 0x99 | 0x81 | 0x91 =>
    sta cpu code.mode
  | 0x86 | 0x96 | 0x8E =>
    stx cpu code.mode
  | 0x84 | 0x94 | 0x8C =>
    sty cpu code.mode
  | 0x69 | 0x65 | 0x75 | 0x6D | 0x7D | 0x79 | 0x61 | 0x71 =>
    adc cpu code.mode
  | 0x29 | 0x25 | 0x35 | 0x2D | 0x3D | 0x39 | 0x21 | 0x31 =>
    and cpu code.mode
  | 0x49 | 0x45 | 0x55 | 0x4D | 0x5D | 0x59 | 0x41 | 0x51 =>
    eor cpu code.mode
  | 0x09 | 0x05 | 0x15 | 0x0D | 0x1D | 0x19 | 0x01 | 0x11 =>
    ora cpu code.mode
  | 0x0A => .ok (asl_acc cpu)
  | 0x06 | 0x16 | 0x0E | 0x1E =>
    asl cpu code.mode
  | 0x4A => .ok (lsr_acc cpu)
  | 0x46 | 0x56 | 0x4E | 0x5E =>
    lsr cpu code.mode
  | 0x2A => .ok (rol_acc cpu)
  | 0x26 | 0x36 | 0x2E | 0x3E =>
    rol cpu code.mode
  | 0x6A => .ok (ror_acc cpu)
  | 0x66 | 0x76 | 0x6E | 0x7E =>
    ror cpu code.mode
  | 0x90 => bcc cpu
  | 0xB0 => bcs cpu
  | 0xF0 => beq cpu
  | 0x30 => bmi cpu
  | 0xD0 => bne cpu
  | 0x10 => bpl cpu
  | 0x50 => bvc cpu
  | 0x70 => bvs cpu
  | 0xE9 | 0xE5 | 0xF5 | 0xED | 0xFD | 0xF9 | 0xE1 | 0xF1 =>
    sbc cpu code.mode
  | 0x24 | 0x2C =>
    bit cpu code.mode
  | 0x18 => .ok (clc cpu)
  | 0xD8 => .ok (cld cpu)
  | 0x58 => .ok (cli cpu)
  | 0xB8 => .ok (clv cpu)
  | 0xC9 | 0xC5 | 0xD5 | 0xCD | 0xDD | 0xD9 | 0xC1 | 0xD1 =>
    cmp cpu code.mode
  | 0xE0 | 0xE4 | 0xEC =>
    cpx cpu code.mode
  | 0xC0 | 0xC4 | 0xCC =>
    cpy cpu code.mode
  | 0xC6 | 0xD6 | 0xCE | 0xDE =>
    dec cpu code.mode
  | 0xCA => .ok (dex cpu)
  | 0x88 => .ok (dey cpu)
  | 0xE6 | 0xF6 | 0xEE | 0xFE =>
    inc cpu code.mode
  | 0xE8 => .ok (inx cpu)
  | 0xC8 => .ok (iny cpu)
  | 0x08 => php cpu
  | 0x48 => pha cpu
  | 0x28 => plp cpu
  | 0x68 => pla cpu
  | 0x20 => jsr cpu code.mode
  | 0x60 => rts cpu
  | 0x40 => rti cpu
  | 0x38 => .ok (sec cpu)
  | 0xF8 => .ok (sed cpu)
  | 0x78 => .ok (sei cpu)
  | 0x4C => do
      let (addr, cpu) ← cpu.mem_read_u16 cpu.pc
      .ok { cpu with pc := addr }
  | 0x6C => do
      let (addr, cpu) ← cpu.mem_read_u16 cpu.pc
      let (indirect_ref, cpu) ←
        if addr &&& 0x00FF = 0x00FF then do
          let (lo, cpu) ← cpu.mem_read addr
          let (hi, cpu) ← cpu.mem_read (addr &&& 0xFF00)
          Except.ok ((hi <<< 8) ||| lo, cpu)
        else cpu.mem_read_u16 addr
      .ok { cpu with pc := indirect_ref }
  | _ => .ok cpu

/-- cpu/mod.rs interprect_with_callback. The body executes exactly one
instruction: the surrounding loop is commented out in the source. The
callback is a host observer; the history and codes diagnostics are not
modelled. The routine fetches the opcode, bumps PC, looks the opcode up in
OPCODES_MAP (an absent entry is the expect fault, UnknownOpcode), runs the
dispatch match, and advances PC by bytes - 1 when the arm left PC equal to
its post-fetch value. It contains no ppu.tick call and no NMI poll. -/
def CPU.interprect_with_callback (cpu : CPU) : Except EmuErr CPU := do
  let (op, cpu) ← cpu.mem_read cpu.pc
  let cpu := { cpu with pc := (cpu.pc + 1) % 65536 }
  let pc_state := cpu.pc
  match OPCODES_MAP_get op with
  | none => .error (.unknownOpcode op)
  | some code => do
    let cpu ← execute_opcode cpu op code
    if pc_state = cpu.pc then
      .ok { cpu with pc := (cpu.pc + (code.bytes - 1)) % 65536 }
    else
      .ok cpu

/-- A CPU about to execute TAX (0xAA) from RAM address 0, with a nonzero
accumulator and an untouched PPU. -/
def cpu_c1 : CPU :=
  { pc := 0, sp := 0xFD, acc := 0x12, rx := 0, ry := 0,
    status := CPUStatus.UNUSED,
    bus := { vram := fun a => if a = 0 then 0xAA else 0,
             prg_rom := [],
             ppu := PPU.new [] MirroringType.Horizontal } }

/-- A CPU about to execute NOP (0xEA) from RAM address 0. -/
def cpu_c2 : CPU :=
  { pc := 0, sp := 0xFD, acc := 0, rx := 0, ry := 0,
    status := CPUStatus.UNUSED,
    bus := { vram := fun a => if a = 0 then 0xEA else 0,
             prg_rom := [],
             ppu := PPU.new [] MirroringType.Horizontal } }

/-- A CPU whose accumulator, carry and zero flags are all clear, used to
evaluate add_to_acc on the operand 0. -/
def cpu_c6 : CPU :=
  { pc := 0, sp := 0xFD, acc := 0, rx := 0, ry := 0,
    status := CPUStatus.UNUSED,
    bus := bus0 }

/-- A CPU about to execute JMP indirect (0x6C) at 0x0300: the pointer bytes
are 0xFF and 0x02 (pointer 0x02FF, low byte 0xFF), RAM holds 0x80 at 0x02FF
and 0x50 at 0x0200, so per the claim the bug should load PC with 0x5080. -/
def cpu_c8 : CPU :=
  { pc := 0x0300, sp := 0xFD, acc := 0, rx := 0, ry := 0,
    status := CPUStatus.UNUSED,
    bus := { vram := fun a =>
               if a = 0x0300 then 0x6C else
               if a = 0x0301 then 0xFF else
               if a = 0x0302 then 0x02 else
               if a = 0x02FF then 0x80 else
               if a = 0x0200 then 0x50 else 0,
             prg_rom := [],
             ppu := PPU.new [] MirroringType.Horizontal } }

/-- A PPU whose data-port address sits at 0 over a one-byte CHR holding
0x55, with the read buffer holding 0. -/
def ppu_c4_chr : PPU := PPU.new [0x55] MirroringType.Horizontal

/-- A horizontally mirrored PPU whose data-port address sits at 0x2400, with
vram[0x400] = 7 and vram[0] = 9. Nametable mirroring maps 0x2400 to vram
index 0. -/
def ppu_c4_nt : PPU :=
  { PPU.new [] MirroringType.Horizontal with
      address_register := { vram_addr := 0x2400, write_hi := true },
      vram := ((List.replicate 2048 0).set 0x400 7).set 0 9 }

end FeuerNES

deriving instance DecidableEq for Except

namespace FeuerNES

/-- Claim C10: the spec demands that the 16-bit read be total for every
16-bit address, including 0xFFFF. On the code it is not: the backing array
holds MEMORY_CAP = 0xFFFF bytes, so read(0xFFFF) is already out of bounds,
and read_u16 faults at 0xFFFF and at 0xFFFE (whose high byte sits at
0xFFFF). -/
theorem c10_read_u16_faults_at_top :
    Memory.read Memory.new 0xFFFF = none ∧
    Memory.read_u16 Memory.new 0xFFFF = none ∧
    Memory.read_u16 Memory.new 0xFFFE = none := by
  refine ⟨rfl, rfl, rfl⟩

/-- Claim C9: a header whose byte 7 has a nonzero low bit is rejected as the
claim states, but a header with byte7 &&& 0x0C = 0x08 (an iNES 2.0 image per
the claim) is accepted: the source tests ctrl_byte_two &&& 0x0C == 2, and the
masked value is always one of 0, 4, 8, 12, so the iNES 2.0 branch is
unreachable and parsing returns a Cartridge (mapper 0 here). -/
theorem c9_ines20_header_is_accepted :
    Cartridge.new bad_format_header = .error "not valid iNES 1.0 cartridge!" ∧
    (Cartridge.new ines20_header).map (fun c => c.mapper) = .ok 0 := by
  constructor
  · decide
  · decide

/-- Claim C3: the spec says every data-port access advances the internal
VRAM address by the CTRL step. On the code it never advances: the result of
wrapping_add inside increment_address is discarded, so the register is
unchanged for every in-range address (shown at 0x2000 for both steps), and a
data-port read leaves the current address where it was (shown on a fresh PPU
whose address is 0, still 0 after the read instead of 1). -/
theorem c3_increment_address_never_advances :
    PPUADDR.increment_address { vram_addr := 0x2000, write_hi := true } 1 =
      { vram_addr := 0x2000, write_hi := true } ∧
    PPUADDR.increment_address { vram_addr := 0x2000, write_hi := true } 32 =
      { vram_addr := 0x2000, write_hi := true } ∧
    ((PPU.new [0x55, 0x66] MirroringType.Horizontal).read).map
      (fun r => r.2.address_register.get_address) = some 0 := by
  refine ⟨by decide, by decide, by decide⟩

/-- Claim C4: the spec says a data-port read below the palette range returns
the previous read buffer and refreshes the buffer from chr, or from VRAM at
the nametable-mirrored index. On the code the read returns the freshly
fetched byte itself (0x55 from chr, not the buffered 0), and the VRAM arm
indexes at addr - 0x2000 without mirroring: at 0x2400 under horizontal
mirroring it yields vram[0x400] = 7, although the mirrored index is 0 and
vram[0] = 9. -/
theorem c4_read_returns_fresh_unmirrored_byte :
    (ppu_c4_chr.read).map (fun r => (r.1, r.2.internal_last_read_byte)) =
      some (0x55, 0x55) ∧
    (ppu_c4_nt.read).map (fun r => r.1) = some 7 ∧
    ppu_c4_nt.get_mirror_vram_addr 0x2400 = 0 ∧
    ppu_c4_nt.vram.get? 0 = some 9 := by
  refine ⟨by decide, by decide, by decide, by decide⟩

/-- One tick keeps the wrap bounds provided the argument is at most 341. -/
theorem tick_bounds_aux (p : PPU) (c : Nat) (hc : c ≤ 341)
    (h1 : p.cycles < 341) (h2 : p.scanlines < 262) :
    (p.tick c).cycles < 341 ∧ (p.tick c).scanlines < 262 := by
  unfold PPU.tick SCANLINE_CYCLES_COST SCANLINE_TRIGGER_NMI SCANLINE_PER_FRAME
  have hsum : (p.cycles + c) % 65536 = p.cycles + c := Nat.mod_eq_of_lt (by omega)
  have hsl : (p.scanlines + 1) % 65536 = p.scanlines + 1 := Nat.mod_eq_of_lt (by omega)
  simp only [hsum, hsl]
  constructor <;> (repeat' split) <;> simp_all <;> omega

/-- Every foldl of ticks with arguments at most 341 keeps the bounds. -/
theorem tick_foldl_bounds_aux (args : List Nat) :
    ∀ p : PPU, (∀ a ∈ args, a ≤ 341) → p.cycles < 341 → p.scanlines < 262 →
    (args.foldl PPU.tick p).cycles < 341 ∧
    (args.foldl PPU.tick p).scanlines < 262 := by
  induction args with
  | nil => intro p _ h1 h2; exact ⟨h1, h2⟩
  | cons a rest ih =>
    intro p h h1 h2
    have ha : a ≤ 341 := h a (List.mem_cons_self a rest)
    have hrest : ∀ b ∈ rest, b ≤ 341 := fun b hb => h b (List.mem_cons_of_mem a hb)
    have step := tick_bounds_aux p a ha h1 h2
    exact ih (p.tick a) hrest step.1 step.2

/-- Claim C5 (amended): after any sequence of tick calls whose arguments are
each at most 341, the PPU satisfies cycles < 341 and scanlines < 262. The
restriction on the arguments is needed because tick subtracts 341 at most
once per call (an if, not a loop). -/
theorem c5_tick_bounds_for_bounded_args (chr : List Nat) (mt : MirroringType)
    (args : List Nat) (h : ∀ a ∈ args, a ≤ 341) :
    (args.foldl PPU.tick (PPU.new chr mt)).cycles < 341 ∧
    (args.foldl PPU.tick (PPU.new chr mt)).scanlines < 262 := by
  refine tick_foldl_bounds_aux args (PPU.new chr mt) h ?_ ?_
  · simp [PPU.new]
  · simp [PPU.new]

/-- Witness for C5 at the concrete argument list [341, 100]. -/
theorem c5_witness :
    (([341, 100].foldl PPU.tick (PPU.new [] MirroringType.Horizontal)).cycles < 341 ∧
     ([341, 100].foldl PPU.tick (PPU.new [] MirroringType.Horizontal)).scanlines < 262) :=
  c5_tick_bounds_for_bounded_args [] MirroringType.Horizontal [341, 100] (by decide)

/-- Counterexample to C5 as stated: a single tick with the arbitrary
argument 682 on a fresh PPU leaves cycles = 341, violating cycles < 341,
because tick subtracts 341 only once. -/
theorem c5_counterexample_single_large_tick :
    ((PPU.new [] MirroringType.Horizontal).tick 682).cycles = 341 ∧
    ¬ (((PPU.new [] MirroringType.Horizontal).tick 682).cycles < 341) := by
  refine ⟨by decide, by decide⟩

/-- Claim C7 (amended): for every address in 0x2008-0x3FFF a bus read
behaves identically to a bus read at addr &&& 0x2007 (the source recurses on
the masked address), but a bus write in that range is ignored: the source
arm for the mirror range is empty, so the bus is returned unchanged and
nothing is forwarded to addr &&& 0x2007. -/
theorem mem_read_eq_base_of_low (b : Bus) (m : Nat) (hm : m < 0x2008) :
    Bus.mem_read b m = Bus.mem_read_base b m := by
  unfold Bus.mem_read Bus.mem_read_base
  have hmir : ¬ (PPU_REG_MIRROR_BEGIN ≤ m ∧ m ≤ PPU_REG_MIRROR_END) := by
    simp only [PPU_REG_MIRROR_BEGIN, PPU_REG_MIRROR_END]; omega
  simp [hmir]

theorem c7_mirror_reads_forward_writes_ignored (b : Bus) (a d : Nat)
    (h1 : 0x2008 ≤ a) (h2 : a ≤ 0x3FFF) :
    Bus.mem_read b a = Bus.mem_read b (a &&& 0x2007) ∧
    Bus.mem_write b a d = .ok b := by
  have hmask : a &&& 0x2007 < 0x2008 :=
    Nat.lt_of_le_of_lt Nat.and_le_right (by omega)
  have hA : ¬ a ≤ RAM_END := by
    simp only [RAM_END]; omega
  have hB : ¬ (a = PPU_REG_CTRL ∨ a = PPU_REG_MASK ∨ a = PPU_REG_OAMADDR ∨
      a = PPU_REG_SCROLL ∨ a = PPU_REG_ADDR ∨ a = PPU_REG_OAMDMA) := by
    simp only [PPU_REG_CTRL, PPU_REG_MASK, PPU_REG_OAMADDR, PPU_REG_SCROLL,
      PPU_REG_ADDR, PPU_REG_OAMDMA]
    omega
  have hC : ¬ a = PPU_REG_STATUS := by
    simp only [PPU_REG_STATUS]; omega
  have hD : ¬ a = PPU_REG_OAMDATA := by
    simp only [PPU_REG_OAMDATA]; omega
  have hE : ¬ a = PPU_REG_DATA := by
    simp only [PPU_REG_DATA]; omega
  have hF : PPU_REG_MIRROR_BEGIN ≤ a ∧ a ≤ PPU_REG_MIRROR_END := by
    simp only [PPU_REG_MIRROR_BEGIN, PPU_REG_MIRROR_END]; omega
  have hB1 : ¬ a = PPU_REG_CTRL := by
    simp only [PPU_REG_CTRL]; omega
  have hB2 : ¬ a = PPU_REG_MASK := by
    simp only [PPU_REG_MASK]; omega
  have hB3 : ¬ a = PPU_REG_OAMADDR := by
    simp only [PPU_REG_OAMADDR]; omega
  have hB4 : ¬ a = PPU_REG_SCROLL := by
    simp only [PPU_REG_SCROLL]; omega
  have hB5 : ¬ a = PPU_REG_ADDR := by
    simp only [PPU_REG_ADDR]; omega
  constructor
  · rw [mem_read_eq_base_of_low b (a &&& 0x2007) hmask]
    rw [Bus.mem_read]
    rw [if_neg hA, if_neg hB, if_neg hC, if_neg hD, if_neg hE, if_pos hF]
  · rw [Bus.mem_write]
    rw [if_neg hA, if_neg hB1, if_neg hB2, if_neg hC, if_neg hB3, if_neg hD,
      if_neg hB4, if_neg hB5, if_neg hE, if_pos hF]

/-- Witness for C7 at the concrete mirror address 0x2008. -/
theorem c7_witness :
    Bus.mem_read bus0 0x2008 = Bus.mem_read bus0 (0x2008 &&& 0x2007) ∧
    Bus.mem_write bus0 0x2008 1 = .ok bus0 :=
  c7_mirror_reads_forward_writes_ignored bus0 0x2008 1 (by decide) (by decide)

/-- Counterexample to C7 as stated: writing 1 to 0x2008 should behave like
writing 1 to 0x2000 (which sets the CTRL register to 1), but the mirror-range
write arm is empty, so CTRL stays 0: the two writes produce different state
changes. -/
theorem c7_counterexample_mirror_write_dropped :
    (Bus.mem_write bus0 0x2000 1).map (fun b => b.ppu.ctrl_register.bits) = .ok 1 ∧
    (Bus.mem_write bus0 0x2008 1).map (fun b => b.ppu.ctrl_register.bits) = .ok 0 := by
  refine ⟨by decide, by decide⟩

/-- Inserting a mask disjoint from k leaves the k-bits unchanged. -/
theorem lor_land_of_disjoint (s m k : Nat) (h : m &&& k = 0) :
    (s ||| m) &&& k = s &&& k := by
  refine Nat.eq_of_testBit_eq fun i => ?_
  have hm : Nat.testBit (m &&& k) i = false := by
    rw [h]; exact Nat.zero_testBit i
  rw [Nat.testBit_land] at hm
  rw [Nat.testBit_land, Nat.testBit_land, Nat.testBit_lor]
  cases hs : Nat.testBit s i <;> cases hmm : Nat.testBit m i <;>
    cases hk : Nat.testBit k i <;> simp_all

/-- After inserting a mask, all of its bits read back. -/
theorem lor_land_self (s m : Nat) : (s ||| m) &&& m = m := by
  refine Nat.eq_of_testBit_eq fun i => ?_
  rw [Nat.testBit_land, Nat.testBit_lor]
  cases Nat.testBit s i <;> cases Nat.testBit m i <;> simp

/-- Masking with c keeps the k-bits when c contains all of k. -/
theorem land_land_of_absorb (s c k : Nat) (h : c &&& k = k) :
    (s &&& c) &&& k = s &&& k := by
  rw [Nat.land_assoc, h]

/-- Masking with c clears the k-bits when c is disjoint from k. -/
theorem land_land_of_disjoint (s c k : Nat) (h : c &&& k = 0) :
    (s &&& c) &&& k = 0 := by
  rw [Nat.land_assoc, h, Nat.and_zero]

/-- Mask-level corollaries of the lemmas above, instantiated at the masks
used by the carry and overflow updates (insert 1, remove via 254, insert 64,
remove via 191) read back at the CARRY (1), ZERO (2), OVERFLOW (64) and
NEGATIVE (128) bits. -/
theorem k01 (s : Nat) : (s ||| 1) &&& 1 = 1 := lor_land_self s 1

theorem k02 (s : Nat) : (s ||| 64) &&& 1 = s &&& 1 :=
  lor_land_of_disjoint s 64 1 (by decide)

theorem k03 (s : Nat) : (s &&& 254) &&& 1 = 0 :=
  land_land_of_disjoint s 254 1 (by decide)

theorem k04 (s : Nat) : (s &&& 191) &&& 1 = s &&& 1 :=
  land_land_of_absorb s 191 1 (by decide)

theorem k05 (s : Nat) : (s ||| 64) &&& 64 = 64 := lor_land_self s 64

theorem k06 (s : Nat) : (s &&& 191) &&& 64 = 0 :=
  land_land_of_disjoint s 191 64 (by decide)

theorem k07 (s : Nat) : (s ||| 1) &&& 2 = s &&& 2 :=
  lor_land_of_disjoint s 1 2 (by decide)

theorem k08 (s : Nat) : (s &&& 254) &&& 2 = s &&& 2 :=
  land_land_of_absorb s 254 2 (by decide)

theorem k09 (s : Nat) : (s ||| 64) &&& 2 = s &&& 2 :=
  lor_land_of_disjoint s 64 2 (by decide)

theorem k10 (s : Nat) : (s &&& 191) &&& 2 = s &&& 2 :=
  land_land_of_absorb s 191 2 (by decide)

theorem k11 (s : Nat) : (s ||| 1) &&& 128 = s &&& 128 :=
  lor_land_of_disjoint s 1 128 (by decide)

theorem k12 (s : Nat) : (s &&& 254) &&& 128 = s &&& 128 :=
  land_land_of_absorb s 254 128 (by decide)

theorem k13 (s : Nat) : (s ||| 64) &&& 128 = s &&& 128 :=
  lor_land_of_disjoint s 64 128 (by decide)

theorem k14 (s : Nat) : (s &&& 191) &&& 128 = s &&& 128 :=
  land_land_of_absorb s 191 128 (by decide)

theorem k15 (s : Nat) : (s ||| 1) &&& 64 = s &&& 64 :=
  lor_land_of_disjoint s 1 64 (by decide)

theorem k16 (s : Nat) : (s &&& 254) &&& 64 = s &&& 64 :=
  land_land_of_absorb s 254 64 (by decide)

/-- Claim C6 (amended): add_to_acc (the ADC core) stores
A2 = (A + M + C) mod 256 into the accumulator, sets the carry flag to
(A + M + C) > 0xFF and the overflow flag to ((M xor A2) and (A xor A2) and
0x80) not zero, but leaves the N and Z status bits exactly as they were:
the source updates only the carry and overflow flags here. -/
theorem c6_add_to_acc_flag_semantics (cpu : CPU) (data : Nat) :
    (add_to_acc cpu data).acc =
      (cpu.acc + data +
        (if statusContains cpu.status CPUStatus.CARRY then 1 else 0)) % 256 ∧
    statusContains (add_to_acc cpu data).status CPUStatus.CARRY =
      decide (cpu.acc + data +
        (if statusContains cpu.status CPUStatus.CARRY then 1 else 0) > 0xFF) ∧
    statusContains (add_to_acc cpu data).status CPUStatus.OVERFLOW =
      decide ((data ^^^ (add_to_acc cpu data).acc) &&&
        (cpu.acc ^^^ (add_to_acc cpu data).acc) &&& 0x80 ≠ 0) ∧
    (add_to_acc cpu data).status &&& CPUStatus.ZERO =
      cpu.status &&& CPUStatus.ZERO ∧
    (add_to_acc cpu data).status &&& CPUStatus.NEGATIVE =
      cpu.status &&& CPUStatus.NEGATIVE := by
  unfold add_to_acc update_carry_flag update_overflow_flag
  refine ⟨?_, ?_, ?_, ?_, ?_⟩ <;>
    · dsimp only
      repeat' split
      all_goals
        simp_all [statusContains, statusInsert, statusRemove,
          k01, k02, k03, k04, k05, k06, k07, k08, k09, k10, k11, k12, k13,
          k14, k15, k16, CPUStatus.CARRY, CPUStatus.OVERFLOW,
          CPUStatus.ZERO, CPUStatus.NEGATIVE, -Nat.and_one_is_mod]

/-- Counterexample to C6 as stated: adding M = 0 with A = 0 and C = 0
produces the result 0, so the claim requires the Z flag to be set, but the
code leaves it clear (the status is UNUSED before and after). -/
theorem c6_counterexample_zero_flag_not_updated :
    (add_to_acc cpu_c6 0).acc = 0 ∧
    statusContains (add_to_acc cpu_c6 0).status CPUStatus.ZERO = false := by
  refine ⟨rfl, rfl⟩

/-- Claim C1: the spec says the step routine drives ppu.tick(base cycles
times 3) after each instruction and services a pending NMI. The routine
contains no such call: after executing TAX (base cycles 2, so the claim
demands a tick by 6), the PPU cycle counter, scanline counter and NMI flag
are exactly as before (0, 0, false). -/
theorem c1_step_never_ticks_ppu :
    (cpu_c1.interprect_with_callback).map
        (fun c => (c.bus.ppu.cycles, c.bus.ppu.scanlines, c.bus.ppu.should_nmi_flag)) =
      .ok (0, 0, false) ∧
    (OPCODES_MAP_get 0xAA).map Opcode.cycles = some 2 := by
  refine ⟨rfl, rfl⟩

/-- Claim C2: the opcode table lacks many documented encodings (NOP 0xEA,
JMP 0x4C and 0x6C, RTI 0x40, PHA 0x48, PLA 0x68, LSR 0x4A, ROL 0x2A,
ROR 0x6A, the whole ORA family such as 0x09), so the metadata lookup fails
and executing NOP faults with UnknownOpcode, although the dispatch match of
the very same routine has arms for all of these opcodes. -/
theorem c2_opcode_table_missing_documented_encodings :
    OPCODES_MAP_get 0xEA = none ∧ OPCODES_MAP_get 0x4C = none ∧
    OPCODES_MAP_get 0x6C = none ∧ OPCODES_MAP_get 0x40 = none ∧
    OPCODES_MAP_get 0x48 = none ∧ OPCODES_MAP_get 0x68 = none ∧
    OPCODES_MAP_get 0x4A = none ∧ OPCODES_MAP_get 0x2A = none ∧
    OPCODES_MAP_get 0x6A = none ∧ OPCODES_MAP_get 0x09 = none ∧
    cpu_c2.interprect_with_callback = .error (.unknownOpcode 0xEA) := by
  refine ⟨rfl, rfl, rfl, rfl, rfl, rfl, rfl, rfl, rfl, rfl, rfl⟩

/-- Claim C8: executing JMP indirect can never reach the page-wrap logic:
0x6C is absent from the opcode table, so the step faults with UnknownOpcode
at the metadata lookup on the very input the claim describes (pointer
0x02FF, low target byte at 0x02FF, high target byte at 0x0200). -/
theorem c8_jmp_indirect_faults_at_lookup :
    cpu_c8.interprect_with_callback = .error (.unknownOpcode 0x6C) ∧
    OPCODES_MAP_get 0x6C = none := by
  refine ⟨rfl, rfl⟩

end FeuerNES
